import Mathlib

/-!
Verification of the ModelsEvalSystem dashboard client (`src/static/js/app.js`)
against its natural-language specification.

The file shallowly embeds the JavaScript functions the claims are about:
a small model of JSON/JavaScript values (`JsValue`) with the truthiness,
member-access and optional-chaining semantics the code relies on, and then
one Lean definition per relevant function of `app.js`, translated from the
source.  External library calls (`Number.prototype.toFixed`,
`Date.prototype.toLocaleString`, `JSON.parse`, the regex engine) are taken
as function parameters: the embedded definitions capture exactly the control
flow of the source around them.
-/

set_option autoImplicit false

namespace ModelsEval

/-- A JavaScript value as the dashboard code observes it: the six JSON shapes
plus `undefined` (the result of reading an absent property).  Numbers are
modelled as integers; none of the embedded code depends on fractional
numeric values. -/
inductive JsValue where
  | vnull
  | vundef
  | vbool (b : Bool)
  | vnum (n : Int)
  | vstr (s : String)
  | varr (elems : List JsValue)
  | vobj (fields : List (String × JsValue))

namespace JsValue

/-- JavaScript truthiness: `false`, `0`, `""`, `null` and `undefined` are
falsy; every object and array is truthy. -/
def truthy : JsValue → Bool
  | vnull => false
  | vundef => false
  | vbool b => b
  | vnum n => n != 0
  | vstr s => s != ""
  | varr _ => true
  | vobj _ => true

/-- `null` and `undefined`: the values on which property access throws and
at which optional chaining short-circuits. -/
def nullish : JsValue → Bool
  | vnull => true
  | vundef => true
  | vbool _ => false
  | vnum _ => false
  | vstr _ => false
  | varr _ => false
  | vobj _ => false

/-- `v.k` on a non-nullish `v`: field lookup on objects; `undefined` on
primitives and arrays (none of the accessed names is a built-in property). -/
def member : JsValue → String → JsValue
  | vobj fields, k => (fields.lookup k).getD vundef
  | vnull, _ => vundef
  | vundef, _ => vundef
  | vbool _, _ => vundef
  | vnum _, _ => vundef
  | vstr _, _ => vundef
  | varr _, _ => vundef

/-- `v?.k`: optional chaining, `undefined` when `v` is nullish. -/
def optMember (v : JsValue) (k : String) : JsValue :=
  if v.nullish then vundef else v.member k

/-- `v?.[i]`: optional index access; element lookup on arrays, string key
lookup on objects (JavaScript coerces the numeric index), `undefined`
otherwise. -/
def optIndex (v : JsValue) (i : Nat) : JsValue :=
  match v with
  | varr elems => elems.getD i vundef
  | vobj fields => (fields.lookup (toString i)).getD vundef
  | vnull => vundef
  | vundef => vundef
  | vbool _ => vundef
  | vnum _ => vundef
  | vstr _ => vundef

/-- `v.k` where `v` may be nullish, in which case JavaScript throws a
`TypeError` (modelled as `Except.error`). -/
def memberOrThrow (v : JsValue) (k : String) : Except Unit JsValue :=
  if v.nullish then .error () else .ok (v.member k)

/-- `Array.isArray(v)`. -/
def isArray : JsValue → Bool
  | varr _ => true
  | vnull => false
  | vundef => false
  | vbool _ => false
  | vnum _ => false
  | vstr _ => false
  | vobj _ => false

/-- `typeof v === 'object'`: true for objects, arrays and `null`. -/
def typeofObject : JsValue → Bool
  | vobj _ => true
  | varr _ => true
  | vnull => true
  | vundef => false
  | vbool _ => false
  | vnum _ => false
  | vstr _ => false

/-- `Object.values(v)` for an object. -/
def objectValues : JsValue → List JsValue
  | vobj fields => fields.map Prod.snd
  | vnull => []
  | vundef => []
  | vbool _ => []
  | vnum _ => []
  | vstr _ => []
  | varr _ => []

/-- The elements of an array value. -/
def elemsOf : JsValue → List JsValue
  | varr elems => elems
  | vnull => []
  | vundef => []
  | vbool _ => []
  | vnum _ => []
  | vstr _ => []
  | vobj _ => []

/-- String conversion as performed by template literals (`String(v)`).
Inside an array, `null` and `undefined` convert to the empty string. -/
def display : JsValue → String
  | vnull => "null"
  | vundef => "undefined"
  | vbool b => if b then "true" else "false"
  | vnum n => toString n
  | vstr s => s
  | varr elems => String.intercalate "," (displayElems elems)
  | vobj _ => "[object Object]"
where
  /-- Array elements under `String`: nullish elements become empty. -/
  displayElems : List JsValue → List String
  | [] => []
  | e :: es =>
    (match e with
     | vnull => ""
     | vundef => ""
     | v => display v) :: displayElems es

end JsValue

/-- The whitespace characters stripped by `String.prototype.trim` (ASCII
subset; the dashboard only ever feeds it text typed into a form field). -/
def jsWhitespace (c : Char) : Bool :=
  c == ' ' || c == '\t' || c == '\n' || c == '\r' || c == '\x0b' || c == '\x0c'

/-- `String.prototype.trim`: strip leading and trailing whitespace. -/
def jsTrim (s : String) : String :=
  String.mk (((s.data.dropWhile jsWhitespace).reverse.dropWhile jsWhitespace).reverse)

/-! ## `utils.format*` (app.js lines 43-62)

`toFixed1` stands for `Number.prototype.toFixed(1)` and `toLocale` for
`Date.prototype.toLocaleString('zh-CN')`, both external library routines;
the embedded definitions carry the source's own branching around them.
Numeric inputs are rationals; the `= 0` tests translate `if (!x)` on a
number (`NaN` does not arise: the backend serialises concrete numbers). -/

/-- `utils.formatDate` (app.js 43-47): `none` stands for a `null`/absent
date string. -/
def formatDate (toLocale : String → String) (dateString : Option String) : String :=
  match dateString with
  | none => "-"
  | some s => if s = "" then "-" else toLocale s

/-- `utils.formatExecutionTime` (app.js 50-55). -/
def formatExecutionTime (toFixed1 : ℚ → String) (seconds : ℚ) : String :=
  if seconds = 0 then "-"
  else if seconds < 60 then toFixed1 seconds ++ "秒"
  else if seconds < 3600 then toFixed1 (seconds / 60) ++ "分钟"
  else toFixed1 (seconds / 3600) ++ "小时"

/-- `utils.formatMemory` (app.js 58-62). -/
def formatMemory (toFixed1 : ℚ → String) (mb : ℚ) : String :=
  if mb = 0 then "-"
  else if mb < 1024 then toFixed1 mb ++ " MB"
  else toFixed1 (mb / 1024) ++ " GB"

/-! ## Evaluation submission (app.js 426-518)

A submission handler either returns before `apiRequest` (validation
failure: a warning notification and no POST), or issues exactly one POST
whose body is the object literal built in the source, and then branches on
`response.success`.  The parsed JSON response of the POST is supplied by
the `respond` parameter (the network plus backend); `apiRequest` rejections
(network/HTTP errors) leave the handler in its catch block without any of
the effects below and are outside the claims, which all speak about
responses that arrive. -/

/-- The JSON body of `POST /api/evaluation/single` as built at
app.js 453-457; `config` is the `JsValue` named `config` in the source
(`null` when no config text was given). -/
structure SingleBody where
  model_path : String
  dataset_name : String
  config : JsValue

/-- The JSON body of `POST /api/evaluation/batch` as built at
app.js 498-503. -/
structure BatchBody where
  model_paths : List String
  dataset_name : String
  task_name : String
  parallel : Bool

/-- What a submission handler did: returned early with a warning
notification and no POST, or POSTed `body` and then, from the response,
showed `notification` (message, css class), reset the form or not, and
reloaded the task-progress list or not. -/
inductive SubmitOutcome (β : Type) where
  | noPost (warning : String)
  | post (body : β) (notification : String × String) (formReset : Bool)
      (progressReloaded : Bool)

/-- `evaluation.submitSingleEvaluation` (app.js 426-472).  `modelPath` and
`datasetName` are the form-field values, `configRaw` the raw config
textarea (trimmed by the source before use), `parseJSON` stands for
`JSON.parse` (`none` = the parse threw). -/
def submitSingleEvaluation (modelPath datasetName configRaw : String)
    (parseJSON : String → Option JsValue)
    (respond : SingleBody → JsValue) : SubmitOutcome SingleBody :=
  let configText := jsTrim configRaw
  if modelPath = "" ∨ datasetName = "" then
    .noPost "请填写模型和数据集"
  else
    -- `config` starts as `null` and is only replaced when config text was
    -- given and `JSON.parse` succeeds; a parse error returns early.
    match (if configText = "" then some JsValue.vnull else parseJSON configText) with
    | none => .noPost "配置参数JSON格式错误"
    | some config =>
      let body : SingleBody := ⟨modelPath, datasetName, config⟩
      let response := respond body
      if (response.member "success").truthy then
        .post body ("单模型测评任务已创建", "success") true true
      else
        .post body ("创建测评任务失败: " ++ (response.member "detail").display,
          "error") false false

/-- `evaluation.submitBatchEvaluation` (app.js 474-518).  `selectedModels`
is the list of checked checkbox values in DOM order. -/
def submitBatchEvaluation (selectedModels : List String)
    (datasetName taskName : String) (parallel : Bool)
    (respond : BatchBody → JsValue) : SubmitOutcome BatchBody :=
  if selectedModels.length = 0 then
    .noPost "请选择至少一个模型"
  else if datasetName = "" then
    .noPost "请填写数据集名称"
  else
    let body : BatchBody := ⟨selectedModels, datasetName, taskName, parallel⟩
    let response := respond body
    if (response.member "success").truthy then
      .post body ("批量测评任务已创建", "success") true true
    else
      .post body ("创建批量测评失败: " ++ (response.member "detail").display,
        "error") false false

/-! ## Dashboard GPU statistic (app.js 146-165) -/

/-- The GPU-usage value computed by `dashboard.loadStats` (app.js 160):
`gpu.data?.gpus?.[0]?.utilization_gpu || 0`. -/
def loadStatsGpuUsage (gpu : JsValue) : JsValue :=
  let chained := ((((gpu.optMember "data").optMember "gpus").optIndex 0).optMember
    "utilization_gpu")
  if chained.truthy then chained else .vnum 0

/-- The text written into the `gpu-usage` element (app.js 161):
`` `${gpuUsage}%` ``. -/
def loadStatsGpuText (gpu : JsValue) : String :=
  (loadStatsGpuUsage gpu).display ++ "%"

/-! ## Polling timers (app.js 543-550 and 788-797) -/

/-- A `setInterval` registration: the period in milliseconds and a label
for what the callback refreshes. -/
structure IntervalRegistration where
  periodMs : Nat
  refreshes : List String

/-- `evaluation.startProgressPolling` (app.js 543-550): re-renders the task
progress list every 5000 ms. -/
def startProgressPolling : IntervalRegistration :=
  ⟨5000, ["task-progress"]⟩

/-- `monitoring.startAutoRefresh` (app.js 788-797): refreshes GPU status,
the chart and system info every 10000 ms. -/
def startAutoRefresh : IntervalRegistration :=
  ⟨10000, ["gpu-status", "gpu-chart", "system-info"]⟩

/-! ## Records table and excellence promotion (app.js 560-649) -/

/-- One evaluation record as the table renders it (only the fields the
embedded functions read). -/
structure RecordRow where
  id : Int
  status : String

/-- Whether the actions cell rendered by `records.loadRecords` for `record`
contains the `加入优秀` promotion button (app.js 578):
`record.status === 'completed' ? '<button ...加入优秀</button>' : ''`. -/
def excellentButtonShown (record : RecordRow) : Bool :=
  record.status == "completed"

/-- The JSON body of `POST /api/records/{id}/excellent` as built at
app.js 634-637; `reason` is the prompt result (`none` = cancelled prompt,
serialised as JSON `null`). -/
structure ExcellentBody where
  reason : Option String
  category : String

/-- What `records.addToExcellent` did after the response arrived. -/
inductive ExcellentOutcome where
  /-- `response.success` truthy: success notification, records reloaded. -/
  | promoted
  /-- otherwise: `加入优秀记录失败` error notification, no reload. -/
  | rejected

/-- `records.addToExcellent` (app.js 628-649): POSTs
`{reason, category: 'general'}` for `recordId` and branches on
`response.success`.  `respond` stands for the network and backend. -/
def addToExcellent (recordId : Int) (reason : Option String)
    (respond : Int → ExcellentBody → JsValue) : ExcellentBody × ExcellentOutcome :=
  let body : ExcellentBody := ⟨reason, "general"⟩
  let response := respond recordId body
  if (response.member "success").truthy then (body, .promoted)
  else (body, .rejected)

/-- Modelled from the spec: the Record Store `promote` operation of the
backend, which is not under `src/` (only its client is).  Spec §4.3:
"`promote(id, reason, category) -> ExcellentRecord` failing with `NotFound`
if `id` absent and `InvalidState` if the Record is not `completed`". -/
inductive PromoteError where
  | notFound
  | invalidState

/-- Modelled from the spec: promotion outcome for a record looked up by id
in the Record Store (`none` = absent id).  A promotion succeeds exactly on
an existing Record whose status is `completed`. -/
def promote (record : Option RecordRow) : Except PromoteError RecordRow :=
  match record with
  | none => .error .notFound
  | some r => if r.status = "completed" then .ok r else .error .invalidState

/-! ## GPU chart buffer (app.js 757-822) -/

/-- The mutable chart series `monitoring.updateChart` appends to:
`chart.data.labels` and `chart.data.datasets[0].data`. -/
structure ChartSeries where
  labels : List String
  data : List Int

/-- `monitoring.initChart` (app.js 761-785) starts both series empty. -/
def initChartSeries : ChartSeries := ⟨[], []⟩

/-- `monitoring.updateChart` (app.js 799-822).  `gpuDataText` is the text
of the first `.gpu-info` element (`none` when `querySelector` finds none,
in which case nothing is appended); `matchUtil` stands for the regex match
`/(\d+)%/` plus `parseInt` (`none` = no match, in which case `0` is
pushed); `now` is the current time label.  After pushing one point, both
series are shifted once when the labels have grown past 20 entries. -/
def updateChart (matchUtil : String → Option Int) (now : String)
    (gpuDataText : Option String) (chart : ChartSeries) : ChartSeries :=
  match gpuDataText with
  | none => chart
  | some s =>
    let value := (matchUtil s).getD 0
    let labels := chart.labels ++ [now]
    let data := chart.data ++ [value]
    if labels.length > 20 then ⟨labels.drop 1, data.drop 1⟩
    else ⟨labels, data⟩

/-! ## `models.loadModels` (app.js 198-249)

The function normalises the payload (`rawData = response.data || response`,
then: array kept as is, other object replaced by its `Object.values`,
anything else by `[]`) and renders one card per entry, with
`'<p>暂无模型数据</p>'` when the joined card HTML is empty.  Every card
template is a non-empty string, so the fallback fires exactly when the
model list is empty; evaluating a card template reads `model.path` (and
more), which throws a `TypeError` exactly when the entry is `null` or
`undefined` — every such throw is caught by the surrounding `try`, which
shows the `加载模型数据失败` error notification and leaves the list
unrendered. -/

/-- The observable result of one `loadModels` call. -/
inductive LoadModelsResult where
  /-- the container was filled with one card per listed entry -/
  | cards (modelsList : List JsValue)
  /-- the container was filled with `<p>暂无模型数据</p>` -/
  | emptyState
  /-- a thrown error was caught: error notification, container untouched -/
  | loadError

/-- The `modelsList` normalisation of app.js 208-215. -/
def modelsListOf (rawData : JsValue) : List JsValue :=
  if rawData.isArray then rawData.elemsOf
  else if rawData.truthy && rawData.typeofObject then rawData.objectValues
  else []

/-- Rendering of app.js 221-236: a caught `TypeError` when an entry is
nullish (the templates read `model.path`), otherwise the cards, with the
`|| '<p>暂无模型数据</p>'` fallback on the empty join. -/
def renderModelCards (modelsList : List JsValue) : LoadModelsResult :=
  if modelsList.any JsValue.nullish then .loadError
  else if modelsList.isEmpty then .emptyState
  else .cards modelsList

/-- `models.loadModels` (app.js 198-249) applied to the parsed JSON
`response`: `rawData = response.data || response` (throwing — hence
`loadError` — when `response` itself is nullish), then normalise and
render. -/
def loadModels (response : JsValue) : LoadModelsResult :=
  match response.memberOrThrow "data" with
  | .error _ => .loadError
  | .ok dataField =>
    let rawData := if dataField.truthy then dataField else response
    renderModelCards (modelsListOf rawData)

/-! ## Theorems -/

/-- C1: a batch submission with no selected model checkboxes issues no POST
to `/api/evaluation/batch`: `submitBatchEvaluation` shows the
`请选择至少一个模型` warning and returns before `apiRequest`, so an empty
model list never reaches the backend and never creates a Task. -/
theorem submitBatch_empty_models_no_post
    (datasetName taskName : String) (parallel : Bool)
    (respond : BatchBody → JsValue) :
    submitBatchEvaluation [] datasetName taskName parallel respond =
      .noPost "请选择至少一个模型" := rfl

/-- C2: the `加入优秀` promotion button is rendered exactly for records
with status `completed`; when the promotion response has a falsy `success`
the client shows the failure notification and records the outcome as
rejected (no reload); and the Record Store `promote` operation (modelled
from the spec) rejects every non-`completed` record with `InvalidState`
while accepting `completed` ones. -/
theorem excellent_promotion_completed_only :
    (∀ record : RecordRow,
      excellentButtonShown record = true ↔ record.status = "completed") ∧
    (∀ (recordId : Int) (reason : Option String)
      (respond : Int → ExcellentBody → JsValue),
      ((respond recordId ⟨reason, "general"⟩).member "success").truthy = false →
      addToExcellent recordId reason respond = (⟨reason, "general"⟩, .rejected)) ∧
    (∀ record : RecordRow, record.status ≠ "completed" →
      promote (some record) = .error .invalidState) ∧
    (∀ record : RecordRow, record.status = "completed" →
      promote (some record) = .ok record) := by
  refine ⟨fun record => ?_, fun recordId reason respond h => ?_,
    fun record h => ?_, fun record h => ?_⟩
  · simp [excellentButtonShown]
  · simp only [addToExcellent, h]
    simp
  · simp [promote, h]
  · simp [promote, h]

/-- Witness for C2 at concrete inputs: a `success: false` response is
recorded as rejected, a `failed` record cannot be promoted, a `completed`
one can. -/
theorem excellent_promotion_completed_only_witness :
    addToExcellent 5 none (fun _ _ => .vobj [("success", .vbool false)]) =
      (⟨none, "general"⟩, .rejected) ∧
    promote (some ⟨5, "failed"⟩) = .error .invalidState ∧
    promote (some ⟨6, "completed"⟩) = .ok ⟨6, "completed"⟩ :=
  ⟨excellent_promotion_completed_only.2.1 5 none _ rfl,
   excellent_promotion_completed_only.2.2.1 ⟨5, "failed"⟩ (by decide),
   excellent_promotion_completed_only.2.2.2 ⟨6, "completed"⟩ rfl⟩

/-- C3: every submission that passes client-side validation POSTs exactly
the object literal of the source: `{model_path, dataset_name, config}` for
a single evaluation and `{model_paths, dataset_name, task_name, parallel}`
for a batch. -/
theorem submission_post_bodies_exact
    (modelPath datasetName configRaw : String)
    (parseJSON : String → Option JsValue) (respondS : SingleBody → JsValue)
    (selectedModels : List String) (batchDataset taskName : String)
    (parallel : Bool) (respondB : BatchBody → JsValue) :
    (modelPath ≠ "" → datasetName ≠ "" →
      ∀ config : JsValue,
        (if jsTrim configRaw = "" then some JsValue.vnull
         else parseJSON (jsTrim configRaw)) = some config →
      ∃ notification formReset progressReloaded,
        submitSingleEvaluation modelPath datasetName configRaw parseJSON respondS =
          .post ⟨modelPath, datasetName, config⟩ notification formReset
            progressReloaded) ∧
    (selectedModels ≠ [] → batchDataset ≠ "" →
      ∃ notification formReset progressReloaded,
        submitBatchEvaluation selectedModels batchDataset taskName parallel
            respondB =
          .post ⟨selectedModels, batchDataset, taskName, parallel⟩ notification
            formReset progressReloaded) := by
  constructor
  · intro hm hd config hc
    simp only [submitSingleEvaluation, hm, hd, or_self, if_false, hc]
    split <;> exact ⟨_, _, _, rfl⟩
  · intro hs hd
    simp only [submitBatchEvaluation, List.length_eq_zero, hs, if_false, hd]
    split <;> exact ⟨_, _, _, rfl⟩

/-- Witness for C3 at concrete inputs: a single submission with a config
text and a batch submission both POST exactly the literal bodies. -/
theorem submission_post_bodies_exact_witness :
    (∃ notification formReset progressReloaded,
      submitSingleEvaluation "m1" "ds" "true" (fun _ => some (.vbool true))
          (fun _ => .vobj []) =
        .post ⟨"m1", "ds", .vbool true⟩ notification formReset
          progressReloaded) ∧
    (∃ notification formReset progressReloaded,
      submitBatchEvaluation ["m1", "m2"] "ds" "t" true (fun _ => .vobj []) =
        .post ⟨["m1", "m2"], "ds", "t", true⟩ notification formReset
          progressReloaded) :=
  ⟨(submission_post_bodies_exact "m1" "ds" "true" (fun _ => some (.vbool true))
      (fun _ => .vobj []) ["m1", "m2"] "ds" "t" true (fun _ => .vobj [])).1
      (by decide) (by decide) (.vbool true) rfl,
   (submission_post_bodies_exact "m1" "ds" "true" (fun _ => some (.vbool true))
      (fun _ => .vobj []) ["m1", "m2"] "ds" "t" true (fun _ => .vobj [])).2
      (by decide) (by decide)⟩

/-- C4: a submission response of the wrapper shape
`{success: bool, detail: string}` is handled by branching on `success`:
when it is `true` the client notifies task creation, resets the form and
reloads task progress; when it is `false` it surfaces `detail` in an error
notification and neither resets nor reloads.  Stated for both the single
and the batch handler. -/
theorem submission_response_handling
    (modelPath datasetName : String) (hm : modelPath ≠ "")
    (hd : datasetName ≠ "") (selectedModels : List String)
    (hs : selectedModels ≠ []) (taskName : String) (parallel : Bool)
    (success : Bool) (detail : String) :
    submitSingleEvaluation modelPath datasetName "" (fun _ => none)
        (fun _ => .vobj [("success", .vbool success), ("detail", .vstr detail)]) =
      (if success then
        .post ⟨modelPath, datasetName, .vnull⟩ ("单模型测评任务已创建", "success")
          true true
      else
        .post ⟨modelPath, datasetName, .vnull⟩
          ("创建测评任务失败: " ++ detail, "error") false false) ∧
    submitBatchEvaluation selectedModels datasetName taskName parallel
        (fun _ => .vobj [("success", .vbool success), ("detail", .vstr detail)]) =
      (if success then
        .post ⟨selectedModels, datasetName, taskName, parallel⟩
          ("批量测评任务已创建", "success") true true
      else
        .post ⟨selectedModels, datasetName, taskName, parallel⟩
          ("创建批量测评失败: " ++ detail, "error") false false) := by
  constructor
  · simp only [submitSingleEvaluation, hm, hd, or_self, if_false]
    cases success <;> rfl
  · simp only [submitBatchEvaluation, List.length_eq_zero, hs, if_false, hd]
    cases success <;> rfl

/-- Witness for C4 at concrete inputs, for both a `success: true` and a
`success: false` response. -/
theorem submission_response_handling_witness :
    (submitSingleEvaluation "m1" "ds" "" (fun _ => none)
        (fun _ => .vobj [("success", .vbool true), ("detail", .vstr "d")]) =
      .post ⟨"m1", "ds", .vnull⟩ ("单模型测评任务已创建", "success") true true) ∧
    (submitBatchEvaluation ["m1"] "ds" "t" false
        (fun _ => .vobj [("success", .vbool false), ("detail", .vstr "boom")]) =
      .post ⟨["m1"], "ds", "t", false⟩ ("创建批量测评失败: boom", "error")
        false false) :=
  ⟨(submission_response_handling "m1" "ds" (by decide) (by decide) ["m1"]
      (by decide) "t" false true "d").1,
   (submission_response_handling "m1" "ds" (by decide) (by decide) ["m1"]
      (by decide) "t" false false "boom").2⟩

/-- C5: a single submission with an empty model path or dataset name, or
with non-empty config text that `JSON.parse` rejects, returns before
`apiRequest`: only a warning/error notification, no POST, so no Task can
be created from malformed input. -/
theorem submitSingle_validation_blocks_post
    (modelPath datasetName configRaw : String)
    (parseJSON : String → Option JsValue) (respond : SingleBody → JsValue) :
    (modelPath = "" ∨ datasetName = "" →
      submitSingleEvaluation modelPath datasetName configRaw parseJSON respond =
        .noPost "请填写模型和数据集") ∧
    (modelPath ≠ "" → datasetName ≠ "" → jsTrim configRaw ≠ "" →
      parseJSON (jsTrim configRaw) = none →
      submitSingleEvaluation modelPath datasetName configRaw parseJSON respond =
        .noPost "配置参数JSON格式错误") := by
  constructor
  · intro h
    simp only [submitSingleEvaluation, h, if_true]
  · intro hm hd hc hp
    simp only [submitSingleEvaluation, hm, hd, or_self, if_false]
    rw [if_neg hc, hp]

/-- Witness for C5 at concrete inputs: an empty model path, and a
non-empty config text rejected by the parser, each block the POST. -/
theorem submitSingle_validation_blocks_post_witness :
    (submitSingleEvaluation "" "ds" "" (fun _ => none) (fun _ => .vobj []) =
      .noPost "请填写模型和数据集") ∧
    (submitSingleEvaluation "m1" "ds" "\x7bbad" (fun _ => none)
        (fun _ => .vobj []) = .noPost "配置参数JSON格式错误") :=
  ⟨(submitSingle_validation_blocks_post "" "ds" "" (fun _ => none)
      (fun _ => .vobj [])).1 (Or.inl rfl),
   (submitSingle_validation_blocks_post "m1" "ds" "\x7bbad" (fun _ => none)
      (fun _ => .vobj [])).2 (by decide) (by decide) (by decide) rfl⟩

/-- C6: the client polls task progress on a fixed 5000 ms `setInterval`
and monitoring metrics on a fixed 10000 ms `setInterval`. -/
theorem polling_intervals_fixed :
    startProgressPolling.periodMs = 5000 ∧ startAutoRefresh.periodMs = 10000 :=
  ⟨rfl, rfl⟩

/-- C7: the dashboard GPU statistic reads only the first device —
appending further devices never changes the displayed text — and displays
`0%` whenever the `data` or `gpus` field is missing, the GPU list is
empty, or the first device lacks `utilization_gpu`. -/
theorem loadStats_gpu_first_device_only
    (g : JsValue) (rest : List JsValue)
    (dataFields gpuFields : List (String × JsValue)) :
    (loadStatsGpuText (.vobj [("data", .vobj [("gpus", .varr (g :: rest))])]) =
      loadStatsGpuText (.vobj [("data", .vobj [("gpus", .varr [g])])])) ∧
    loadStatsGpuText (.vobj []) = "0%" ∧
    (dataFields.lookup "gpus" = none →
      loadStatsGpuText (.vobj [("data", .vobj dataFields)]) = "0%") ∧
    loadStatsGpuText (.vobj [("data", .vobj [("gpus", .varr [])])]) = "0%" ∧
    (gpuFields.lookup "utilization_gpu" = none →
      loadStatsGpuText
        (.vobj [("data", .vobj [("gpus", .varr [.vobj gpuFields])])]) = "0%") := by
  refine ⟨rfl, rfl, fun h => ?_, rfl, fun h => ?_⟩
  · have hreduce : loadStatsGpuText (.vobj [("data", .vobj dataFields)]) =
        (loadStatsGpuUsage (.vobj [("data",
          .vobj [("gpus", ((dataFields.lookup "gpus").getD .vundef))])])).display ++
          "%" := rfl
    rw [hreduce, h]
    rfl
  · have hreduce : loadStatsGpuText
        (.vobj [("data", .vobj [("gpus", .varr [.vobj gpuFields])])]) =
        (loadStatsGpuUsage (.vobj [("data", .vobj [("gpus",
          .varr [.vobj [("utilization_gpu",
            (gpuFields.lookup "utilization_gpu").getD .vundef)]])])])).display ++
          "%" := rfl
    rw [hreduce, h]
    rfl

/-- Witness for C7 at concrete inputs: a second device does not affect the
text, and a first device without `utilization_gpu` displays `0%`. -/
theorem loadStats_gpu_first_device_only_witness :
    (loadStatsGpuText (.vobj [("data", .vobj [("gpus",
        .varr [.vobj [("utilization_gpu", .vnum 55)],
          .vobj [("utilization_gpu", .vnum 99)]])])]) =
      loadStatsGpuText (.vobj [("data", .vobj [("gpus",
        .varr [.vobj [("utilization_gpu", .vnum 55)]])])])) ∧
    (loadStatsGpuText (.vobj [("data", .vobj [("memory", .vnum 1)])]) = "0%") ∧
    (loadStatsGpuText
      (.vobj [("data", .vobj [("gpus", .varr [.vobj [("name", .vstr "A100")]])])]) =
      "0%") :=
  ⟨(loadStats_gpu_first_device_only (.vobj [("utilization_gpu", .vnum 55)])
      [.vobj [("utilization_gpu", .vnum 99)]] [] []).1,
   (loadStats_gpu_first_device_only (.vobj []) [] [("memory", .vnum 1)] []).2.2.1
      rfl,
   (loadStats_gpu_first_device_only (.vobj []) [] []
      [("name", .vstr "A100")]).2.2.2.2 rfl⟩

/-- C8: the display formatters test their argument for truthiness, so the
zero value gets the missing-value placeholder `-` instead of a formatted
zero, and a `null` or empty date string also formats as `-`; a non-zero
duration is genuinely formatted. -/
theorem formatters_zero_is_placeholder
    (toFixed1 : ℚ → String) (toLocale : String → String) :
    formatExecutionTime toFixed1 0 = "-" ∧
    formatMemory toFixed1 0 = "-" ∧
    formatDate toLocale none = "-" ∧
    formatDate toLocale (some "") = "-" ∧
    formatExecutionTime toFixed1 30 = toFixed1 30 ++ "秒" := by
    refine ⟨by simp [formatExecutionTime], by simp [formatMemory], rfl, rfl, ?_⟩
    norm_num [formatExecutionTime]

/-- C9: `updateChart` keeps the two chart series aligned and bounded:
starting from aligned series of at most 20 points, the updated labels and
data have equal length, that length never exceeds 20, and when the buffer
is full and a point is appended the oldest label is shifted out. -/
theorem updateChart_buffer_bounded
    (matchUtil : String → Option Int) (now : String)
    (gpuDataText : Option String) (chart : ChartSeries)
    (hlen : chart.labels.length = chart.data.length)
    (hbound : chart.labels.length ≤ 20) :
    ((updateChart matchUtil now gpuDataText chart).labels.length =
      (updateChart matchUtil now gpuDataText chart).data.length) ∧
    (updateChart matchUtil now gpuDataText chart).labels.length ≤ 20 ∧
    (chart.labels.length = 20 → gpuDataText.isSome →
      (updateChart matchUtil now gpuDataText chart).labels =
        chart.labels.drop 1 ++ [now]) := by
  cases gpuDataText with
  | none => exact ⟨hlen, hbound, fun _ h => nomatch h⟩
  | some s =>
    simp only [updateChart]
    split
    · next hgt =>
      refine ⟨?_, ?_, fun h20 _ => ?_⟩
      · simp [hlen]
      · simp only [List.length_drop, List.length_append,
          List.length_singleton]
        omega
      · rw [List.drop_append_of_le_length (by omega)]
    · next hle =>
      rw [List.length_append, List.length_singleton, not_lt] at hle
      refine ⟨?_, ?_, fun h20 _ => ?_⟩
      · simp [hlen]
      · simp only [List.length_append, List.length_singleton]
        omega
      · exact absurd hle (by omega)

/-- Witness for C9: one update on a full 20-point buffer stays at 20 points
and drops the oldest label. -/
theorem updateChart_buffer_bounded_witness :
    ((updateChart (fun _ => some 7) "t20" (some "gpu")
        ⟨List.replicate 20 "t0", (List.range 20).map Int.ofNat⟩).labels.length =
      (updateChart (fun _ => some 7) "t20" (some "gpu")
        ⟨List.replicate 20 "t0", (List.range 20).map Int.ofNat⟩).data.length) ∧
    (updateChart (fun _ => some 7) "t20" (some "gpu")
        ⟨List.replicate 20 "t0", (List.range 20).map Int.ofNat⟩).labels.length ≤
      20 ∧
    (updateChart (fun _ => some 7) "t20" (some "gpu")
        ⟨List.replicate 20 "t0", (List.range 20).map Int.ofNat⟩).labels =
      (List.replicate 20 "t0").drop 1 ++ ["t20"] := by
  have h := updateChart_buffer_bounded (fun _ => some 7) "t20" (some "gpu")
    ⟨List.replicate 20 "t0", (List.range 20).map Int.ofNat⟩ (by simp) (by simp)
  exact ⟨h.1, h.2.1, h.2.2 (by simp) rfl⟩

/-- C10 counterexample: a response whose `data` field is the falsy number
`0` — neither an array nor a non-array object, so the claim requires the
empty-state message — is instead rendered as one model card: `rawData`
falls back to the whole response object and `Object.values` of it is
`[0]`. -/
theorem loadModels_falsy_data_refutes_empty_state :
    loadModels (.vobj [("data", .vnum 0)]) = .cards [.vnum 0] ∧
    loadModels (.vobj [("data", .vnum 0)]) ≠ .emptyState :=
  ⟨rfl, fun h => nomatch h⟩

/-- C10 amended: for a response object whose `data` field is truthy, an
array is rendered as is, a non-array object as its `Object.values`, and
any other truthy value yields the empty-state message; when the `data`
field is falsy or absent the whole response object takes its place and its
`Object.values` are rendered.  Rendering a list shows the empty state
exactly when the list is empty and turns a nullish entry into a caught
error (never an uncaught throw). -/
theorem loadModels_payload_shapes (fields : List (String × JsValue)) :
    (∀ elems, fields.lookup "data" = some (.varr elems) →
      loadModels (.vobj fields) = renderModelCards elems) ∧
    (∀ ofields, fields.lookup "data" = some (.vobj ofields) →
      loadModels (.vobj fields) = renderModelCards (ofields.map Prod.snd)) ∧
    (∀ d, fields.lookup "data" = some d → d.truthy = true →
      d.isArray = false → d.typeofObject = false →
      loadModels (.vobj fields) = .emptyState) ∧
    (∀ d, fields.lookup "data" = some d → d.truthy = false →
      loadModels (.vobj fields) = renderModelCards (fields.map Prod.snd)) ∧
    (fields.lookup "data" = none →
      loadModels (.vobj fields) = renderModelCards (fields.map Prod.snd)) := by
  have hbase : loadModels (.vobj fields) =
      renderModelCards (modelsListOf
        (if ((fields.lookup "data").getD .vundef).truthy
         then (fields.lookup "data").getD .vundef else .vobj fields)) := rfl
  refine ⟨fun elems h => ?_, fun ofields h => ?_, fun d h ht ha ho => ?_,
    fun d h ht => ?_, fun h => ?_⟩
  · simp only [hbase, h]
    rfl
  · simp only [hbase, h]
    rfl
  · rw [hbase, h]
    simp [modelsListOf, renderModelCards, ht, ha, ho]
  · simp only [hbase, h, Option.getD_some, ht]
    rfl
  · simp only [hbase, h]
    rfl

/-- Witness for C10 amended at concrete inputs: an array payload, an
object payload, a truthy string payload and a falsy payload. -/
theorem loadModels_payload_shapes_witness :
    loadModels (.vobj [("data", .varr [.vnum 3])]) =
      renderModelCards [.vnum 3] ∧
    loadModels (.vobj [("data", .vobj [("m", .vnum 4)])]) =
      renderModelCards [.vnum 4] ∧
    loadModels (.vobj [("data", .vstr "oops")]) = .emptyState ∧
    loadModels (.vobj [("data", .vbool false)]) =
      renderModelCards [.vbool false] :=
  ⟨(loadModels_payload_shapes [("data", .varr [.vnum 3])]).1 [.vnum 3] rfl,
   (loadModels_payload_shapes [("data", .vobj [("m", .vnum 4)])]).2.1
      [("m", .vnum 4)] rfl,
   (loadModels_payload_shapes [("data", .vstr "oops")]).2.2.1 (.vstr "oops")
      rfl rfl rfl rfl,
   (loadModels_payload_shapes [("data", .vbool false)]).2.2.2.1 (.vbool false)
      rfl rfl⟩

end ModelsEval
